import Mathlib

/-!
# Verification of the RecoBot request-analysis and search pipeline

Shallow embedding of the core of `src/chatbot.py`: text normalization
(`extract_significant_words`), vocabulary classification
(`get_significant_words`), filter extraction (`analyze_request`), year
extraction (`extract_year`), query-clause construction and execution
(`search_movies_optimized`), result formatting (`format_movie_result`),
description truncation (`generate_response`), and the administrative
`add word` upsert from `main`.

Texts are modelled as `List Char`.  SQLite `REAL` values are modelled as
rationals (`ℚ`), which is exact for every constant appearing in the code
(7.0, 6.5, 1000.0, 100.0).  A SQL table is modelled as a list of rows in
rowid order; `INSERT OR REPLACE` deletes the conflicting row and appends
the fresh one.
-/

namespace RecoBot

/-- Shorthand: the character list of a string literal. -/
def cs (s : String) : List Char := s.data

/-- Lower-casing of one character as Python `str.lower` does it for the
character repertoire this program uses: ASCII plus the French accented
letters appearing in the vocabulary tables. -/
def toLowerChar (c : Char) : Char :=
  match c with
  | 'É' => 'é' | 'È' => 'è' | 'Ê' => 'ê' | 'Ë' => 'ë'
  | 'À' => 'à' | 'Â' => 'â' | 'Ä' => 'ä'
  | 'Ç' => 'ç'
  | 'Î' => 'î' | 'Ï' => 'ï'
  | 'Ô' => 'ô' | 'Ö' => 'ö'
  | 'Ù' => 'ù' | 'Û' => 'û' | 'Ü' => 'ü'
  | 'Œ' => 'œ'
  | _ => c.toLower

/-- Python `text.lower()`. -/
def lowerText (s : List Char) : List Char := s.map toLowerChar

/-- SQLite `LOWER(...)`, which folds ASCII letters only. -/
def sqlLowerChar (c : Char) : Char := c.toLower

/-- SQLite `LOWER(...)` over a text value. -/
def sqlLower (s : List Char) : List Char := s.map sqlLowerChar

/-- A word character for the regex `\w` (alphanumerics, the underscore,
and the accented letters used by the French vocabulary of the program). -/
def isWordChar (c : Char) : Bool :=
  c.isAlphanum || c == '_' ||
    (cs "àâäçéèêëîïôöùûüœ").contains c

/-- Python's `in` on strings / SQL `LIKE '%needle%'`: substring test. -/
def isSubstr (needle : List Char) : List Char → Bool
  | [] => needle.isEmpty
  | c :: rest => needle.isPrefixOf (c :: rest) || isSubstr needle rest

/-- `re.findall(r'\b\w+\b', text)`: the maximal runs of word characters,
in order of appearance (split the text at every non-word character and
drop the empty pieces). -/
def tokenize (l : List Char) : List (List Char) :=
  (l.splitOnP (fun c => !isWordChar c)).filter (fun t => !t.isEmpty)

/-- Python `word.isdigit()`: non-empty and all characters are digits. -/
def isdigitTok (w : List Char) : Bool := !w.isEmpty && w.all Char.isDigit

/-- The module-level `STOP_WORDS` set of `chatbot.py` (the Python literal
contains some repeated elements; only membership matters). -/
def STOP_WORDS : List (List Char) :=
  (["le", "la", "les", "un", "une", "des", "ce", "ces", "sa", "ses", "son",
    "mes", "mon", "ma",
    "et", "ou", "mais", "donc", "car", "ni", "or", "que", "qui", "quoi",
    "dont", "où",
    "dans", "sur", "sous", "par", "pour", "en", "vers", "avec", "sans",
    "de", "à",
    "je", "tu", "il", "elle", "nous", "vous", "ils", "elles", "on",
    "être", "avoir", "faire", "dire", "aller", "voir", "vouloir",
    "pouvoir", "falloir",
    "plus", "moins", "très", "bien", "mal", "tout", "tous", "toute",
    "toutes",
    "autre", "autres", "même", "aussi", "alors", "après", "avant",
    "oui", "non", "peut", "comme", "entre", "chaque", "puis",
    "est", "sont", "sera", "été", "était", "étaient", "soit", "suis",
    "sommes",
    "film", "films", "histoire", "année", "années", "fois", "fait",
    "cette", "cet", "celui", "celle", "ceux", "celles"] :
    List String).map String.data

/-- The token filter shared by `extract_significant_words` and
`get_significant_words`: keep tokens longer than 2 characters that are
not stop words and not purely numeric. -/
def keepToken (stop : List (List Char)) (w : List Char) : Bool :=
  decide (2 < w.length) && !stop.contains w && !isdigitTok w

/-- `extract_significant_words(text)` from `chatbot.py`: guard for empty
input, lower-case, tokenize, filter against the static `STOP_WORDS`. -/
def extract_significant_words (text : List Char) : List (List Char) :=
  if text.isEmpty then []
  else (tokenize (lowerText text)).filter (keepToken STOP_WORDS)

/-- One row of the `significant_words` table:
`(word TEXT PRIMARY KEY, category TEXT, subcategory TEXT, weight INTEGER)`. -/
structure VocabEntry where
  word : List Char
  category : List Char
  subcategory : List Char
  weight : Int
deriving DecidableEq, Repr

/-- `INSERT OR REPLACE` into a table whose key is `word`: the conflicting
row (if any) is deleted and the fresh row is appended. -/
def upsert (table : List VocabEntry) (e : VocabEntry) : List VocabEntry :=
  table.filter (fun x => !(x.word == e.word)) ++ [e]

/-- The `add word` administrative command of `main`:
`INSERT OR REPLACE INTO significant_words VALUES (?, ?, ?, 1)`. -/
def add_word (table : List VocabEntry) (w c s : List Char) : List VocabEntry :=
  upsert table ⟨w, c, s, 1⟩

/-- `GENRE_MAPPING` from `chatbot.py`. -/
def GENRE_MAPPING : List (String × List String) :=
  [("action", ["action", "combat", "explosion", "aventure"]),
   ("comédie", ["comédie", "humour", "drôle", "rire"]),
   ("drame", ["drame", "dramatique", "émouvant"]),
   ("science-fiction", ["science-fiction", "sci-fi", "futur", "espace"]),
   ("horreur", ["horreur", "épouvante", "peur", "effrayant"]),
   ("thriller", ["thriller", "suspense", "mystère"]),
   ("romance", ["romance", "amour", "romantique"]),
   ("animation", ["animation", "animé", "dessin animé"]),
   ("documentaire", ["documentaire", "docu"]),
   ("famille", ["famille", "familial", "enfant", "jeunesse"]),
   ("guerre", ["guerre", "militaire", "bataille", "soldat", "armée",
               "combat"])]

/-- `THEME_MAPPING` from `chatbot.py`. -/
def THEME_MAPPING : List (String × List String) :=
  [("voiture", ["voiture", "course", "automobile", "racing", "fast",
                "furious", "vitesse", "pilote"]),
   ("super-héros", ["super-héros", "superhéros", "marvel", "dc", "comics",
                    "superman", "batman", "avengers"]),
   ("sport", ["sport", "football", "basketball", "tennis", "boxe",
              "athlète", "champion"]),
   ("guerre", ["guerre", "militaire", "bataille", "soldat", "armée",
               "combat"]),
   ("fantasy", ["fantasy", "magie", "dragon", "sorcier", "magique",
                "médiéval"]),
   ("western", ["western", "cowboy", "far west", "ranch", "shérif"]),
   ("espionnage", ["espion", "agent secret", "cia", "mission",
                   "infiltration"]),
   ("catastrophe", ["catastrophe", "désastre", "apocalypse", "tsunami",
                    "tremblement", "météorite"]),
   ("musical", ["musical", "musique", "danse", "chant", "concert",
                "comédie musicale"]),
   ("historique", ["historique", "histoire", "période", "époque",
                   "biographie"])]

/-- `THEME_MAPPING.get(theme, [])`: the word list of a theme, or `[]` for
a subcategory absent from the static mapping. -/
def themeMappingGet (theme : List Char) : List (List Char) :=
  match THEME_MAPPING.find? (fun p => p.1.data == theme) with
  | some p => p.2.map String.data
  | none => []

/-- The insertion stream of `initialize_significant_words`: every genre
word with weight 2, then every theme word with weight 1, inserted with
`INSERT OR REPLACE` in this order. -/
def seedStream : List VocabEntry :=
  (GENRE_MAPPING.flatMap (fun p =>
    p.2.map (fun w => ⟨w.data, cs "genre", p.1.data, 2⟩))) ++
  (THEME_MAPPING.flatMap (fun p =>
    p.2.map (fun w => ⟨w.data, cs "theme", p.1.data, 1⟩)))

/-- The `significant_words` table right after bootstrap. -/
def seedTable : List VocabEntry := seedStream.foldl upsert []

/-- The word-filter phase of `get_significant_words`: tokenize the
lower-cased text and keep tokens that pass the length / stop-word /
digit filters (stop words here come from the `stop_words` table). -/
def filteredWords (stop : List (List Char)) (text : List Char) :
    List (List Char) :=
  (tokenize (lowerText text)).filter (keepToken stop)

/-- `get_significant_words(movie_db, text)`: filter the tokens, then run
`SELECT word, category, subcategory, weight FROM significant_words WHERE
word IN (...)`.  The `IN` predicate is row-membership: each table row is
returned at most once (in table order), no matter how often its word
occurs among the tokens. -/
def get_significant_words (stop : List (List Char))
    (table : List VocabEntry) (text : List Char) : List VocabEntry :=
  let fw := filteredWords stop text
  if fw.isEmpty then []
  else table.filter (fun e => fw.contains e.word)

/-- Reads a four-digit number at the head of the character list, the way
`(\d{4})` matches exactly four digit characters. -/
def year4 : List Char → Option Nat
  | a :: b :: c :: d :: _ =>
    if a.isDigit && b.isDigit && c.isDigit && d.isDigit then
      some ((a.toNat - 48) * 1000 + (b.toNat - 48) * 100 +
            (c.toNat - 48) * 10 + (d.toNat - 48))
    else none
  | _ => none

/-- Matches `pre` followed by four digits at the start of `s`. -/
def matchAt (pre : List Char) (s : List Char) : Option Nat :=
  if pre.isPrefixOf s then year4 (s.drop pre.length) else none

/-- `re.search` for the pattern `pre(\d{4})`: leftmost match wins. -/
def searchPattern (pre : List Char) : List Char → Option Nat
  | [] => matchAt pre []
  | c :: rest =>
    match matchAt pre (c :: rest) with
    | some y => some y
    | none => searchPattern pre rest

/-- The `year_patterns` list of `extract_year`, each pattern reduced to
its literal part before the capturing group `(\d{4})`. -/
def year_patterns : List (List Char) :=
  [cs "de ", cs "en ", cs "année ", cs ""]

/-- The pattern loop of `extract_year`: for each pattern in order, take
its first (leftmost) match; if that match is a year in
`[1900, currentYear]` return it, otherwise move to the next pattern. -/
def extract_year_loop (currentYear : Nat) (text : List Char) :
    List (List Char) → Option Nat
  | [] => none
  | p :: ps =>
    match searchPattern p text with
    | some y =>
      if 1900 ≤ y ∧ y ≤ currentYear then some y
      else extract_year_loop currentYear text ps
    | none => extract_year_loop currentYear text ps

/-- `extract_year(text)`, with `datetime.now().year` as an explicit
parameter. -/
def extract_year (currentYear : Nat) (text : List Char) : Option Nat :=
  extract_year_loop currentYear text year_patterns

/-- The `filters` dictionary built by `analyze_request`. -/
structure QueryFilters where
  genres : List (List Char)
  themes : List (List Char)
  mood : Option (List Char)
  period : Option (List Char)
  year : Option Nat
  rating_min : Option ℚ
  sort_by : List Char
  keywords : List (List Char)
  prefer_unknown : Bool
  exclude_genres : List (List Char)
deriving DecidableEq, Repr

/-- The initial all-default `filters` dictionary of `analyze_request`. -/
def baseFilters : QueryFilters :=
  { genres := [], themes := [], mood := none, period := none, year := none,
    rating_min := none, sort_by := cs "weighted_score", keywords := [],
    prefer_unknown := false, exclude_genres := [] }

/-- The body of the `for word_info in significant_words` loop of
`analyze_request`: append the subcategory to `genres` or `themes` (by
category) when not already present, and always append the word to
`keywords`. -/
def applyEntry (f : QueryFilters) (e : VocabEntry) : QueryFilters :=
  let f' :=
    if e.category == cs "genre" then
      if f.genres.contains e.subcategory then f
      else { f with genres := f.genres ++ [e.subcategory] }
    else if e.category == cs "theme" then
      if f.themes.contains e.subcategory then f
      else { f with themes := f.themes ++ [e.subcategory] }
    else f
  { f' with keywords := f'.keywords ++ [e.word] }

/-- `QUALITY_INDICATORS['populaire']`. -/
def POPULAIRE_WORDS : List (List Char) :=
  (["populaire", "connu", "célèbre", "succès", "blockbuster"] :
    List String).map String.data

/-- `QUALITY_INDICATORS['critique']`. -/
def CRITIQUE_WORDS : List (List Char) :=
  (["acclamé", "critique", "récompense", "oscar", "césar"] :
    List String).map String.data

/-- `QUALITY_INDICATORS['inconnu']`. -/
def INCONNU_WORDS : List (List Char) :=
  (["méconnu", "rare", "confidentiel", "découverte", "indie"] :
    List String).map String.data

/-- `any(keyword in text for keyword in ws)`: Python `in` on strings is a
substring test. -/
def anySubstr (ws : List (List Char)) (text : List Char) : Bool :=
  ws.any (fun w => isSubstr w text)

/-- The quality-signal `if/elif` chain at the end of `analyze_request`,
applied to the lower-cased request text. -/
def applyQuality (text : List Char) (f : QueryFilters) : QueryFilters :=
  if anySubstr POPULAIRE_WORDS text then
    { f with sort_by := cs "popularity" }
  else if anySubstr CRITIQUE_WORDS text then
    { f with sort_by := cs "rating", rating_min := some 7 }
  else if anySubstr INCONNU_WORDS text then
    { f with prefer_unknown := true, rating_min := some (13 / 2 : ℚ) }
  else f

/-- `analyze_request(movie_db, text)`: lower-case, extract the year, fold
the classified significant words into the filters, then apply the
quality-signal chain.  The stop-word table, the `significant_words`
table and the current year are explicit parameters standing for the
database state and the clock. -/
def analyze_request (stop : List (List Char)) (table : List VocabEntry)
    (currentYear : Nat) (text : List Char) : QueryFilters :=
  let t := lowerText text
  let f0 := { baseFilters with year := extract_year currentYear t }
  let sw := get_significant_words stop table t
  applyQuality t (sw.foldl applyEntry f0)

/-- One row of the `movies` table. -/
structure MovieRow where
  title : List Char
  overview : List Char
  release_year : Int
  genres : List Char
  vote_average : ℚ
  vote_count : Int
  popularity : ℚ
deriving DecidableEq, Repr

/-- The derived column of `search_movies_optimized`:
`vote_average * (CAST(vote_count AS FLOAT) / 1000.0) + popularity / 100.0`. -/
def weighted_score (m : MovieRow) : ℚ :=
  m.vote_average * ((m.vote_count : ℚ) / 1000) + m.popularity / 100

/-- The `ORDER BY CASE` expression: the raw field for `popularity` and
`rating`, the derived `weighted_score` otherwise. -/
def sortKey (sortBy : List Char) (m : MovieRow) : ℚ :=
  if sortBy == cs "popularity" then m.popularity
  else if sortBy == cs "rating" then m.vote_average
  else weighted_score m

/-- One SQL condition appended by `search_movies_optimized` (the two
OR-groups are kept whole, as the code appends them as single strings). -/
inductive Clause where
  | orGenres (gs : List (List Char))
  | orThemes (ws : List (List Char))
  | yearEq (y : Nat)
  | yearGe (y : Int)
  | yearLe (y : Int)
  | ratingGe (q : ℚ)
deriving DecidableEq, Repr

/-- The words tested by the theme OR-group: for each requested theme,
`THEME_MAPPING.get(theme, [])` — the static module-level mapping, not
the `significant_words` table. -/
def themeClauseWords (themes : List (List Char)) : List (List Char) :=
  themes.flatMap themeMappingGet

/-- The `conditions` list built by `search_movies_optimized` from the
filters (`currentYear` stands for `datetime.now().year`).  `rating_min`
adds a clause only when truthy, i.e. set and non-zero. -/
def build_conditions (currentYear : Int) (f : QueryFilters) :
    List Clause :=
  (if f.genres.isEmpty then []
   else [Clause.orGenres (f.genres.map lowerText)]) ++
  (if f.themes.isEmpty then []
   else
     let ws := themeClauseWords f.themes
     if ws.isEmpty then [] else [Clause.orThemes (ws.map lowerText)]) ++
  (match f.year with
   | some y => [Clause.yearEq y]
   | none =>
     if f.period == some (cs "recent") then [Clause.yearGe (currentYear - 2)]
     else if f.period == some (cs "classique") then
       [Clause.yearLe (currentYear - 20)]
     else []) ++
  (match f.rating_min with
   | some q => if q == 0 then [] else [Clause.ratingGe q]
   | none => [])

/-- Truth of one clause on one row.  `LOWER(col) LIKE '%w%'` is a
substring test on the ASCII-lower-cased column. -/
def Clause.holds (m : MovieRow) : Clause → Bool
  | .orGenres gs => gs.any (fun g => isSubstr g (sqlLower m.genres))
  | .orThemes ws => ws.any (fun w =>
      isSubstr w (sqlLower m.overview) || isSubstr w (sqlLower m.title))
  | .yearEq y => m.release_year == (y : Int)
  | .yearGe y => decide (y ≤ m.release_year)
  | .yearLe y => decide (m.release_year ≤ y)
  | .ratingGe q => decide (q ≤ m.vote_average)

/-- The `WHERE` clause: conjunction of the conditions (`1=1` when the
list is empty). -/
def matchesWhere (conds : List Clause) (m : MovieRow) : Bool :=
  conds.all (fun c => c.holds m)

/-- Descending order on the `ORDER BY` key. -/
def keyDesc (sortBy : List Char) (a b : MovieRow) : Prop :=
  sortKey sortBy b ≤ sortKey sortBy a

instance (sortBy : List Char) : DecidableRel (keyDesc sortBy) :=
  fun _ _ => inferInstanceAs (Decidable (_ ≤ _))

/-- The query of `search_movies_optimized` run against a catalog given
as a list of rows: filter by the `WHERE` conjunction, order descending
by the `CASE` key, return the first 5 rows.  (SQL leaves the order of
ties unspecified; a stable sort is one admissible execution.) -/
def runQuery (sortBy : List Char) (conds : List Clause)
    (catalog : List MovieRow) : List MovieRow :=
  ((catalog.filter (matchesWhere conds)).insertionSort
    (keyDesc sortBy)).take 5

/-- `search_movies_optimized(movie_db, filters)` up to formatting: build
the conditions from the filters, then run the query. -/
def search_movies_optimized (currentYear : Int) (f : QueryFilters)
    (catalog : List MovieRow) : List MovieRow :=
  runQuery f.sort_by (build_conditions currentYear f) catalog

/-- A raw catalog row as the formatter sees it: each field access can
fail (column absent or unreadable), modelled by `Option`. -/
structure RawRow where
  title : Option (List Char)
  release_year : Option Int
  genres : Option (List Char)
  vote_average : Option ℚ
  vote_count : Option Int
  popularity : Option ℚ
  overview : Option (List Char)
  weighted_score : Option ℚ
deriving DecidableEq, Repr

/-- The dictionary built by `format_movie_result`. -/
structure FormattedMovie where
  titre : List Char
  annee : Int
  genre : List Char
  note : ℚ
  vote_count : Int
  popularite : ℚ
  description : List Char
  score : ℚ
deriving DecidableEq, Repr

/-- `format_movie_result(movie)`: build the display dictionary; any
failing required-field access raises, is caught by the `except` block,
and the whole record becomes `None`.  `popularity` and `weighted_score`
are read with `.get` defaults (0, and `movie['vote_average']`)
— assuming a mapping that supports `.get`. -/
def format_movie_result (m : RawRow) : Option FormattedMovie :=
  match m.title, m.release_year, m.genres, m.vote_average,
        m.vote_count, m.overview with
  | some t, some y, some g, some va, some vc, some ov =>
    some { titre := t, annee := y, genre := g, note := va,
           vote_count := vc, popularite := m.popularity.getD 0,
           description := ov, score := m.weighted_score.getD va }
  | _, _, _, _, _, _ => none

/-- The batch pass `[format_movie_result(movie) for movie in movies]`. -/
def formatBatch (rows : List RawRow) : List (Option FormattedMovie) :=
  rows.map format_movie_result

/-- The description limit in `generate_response`: overviews longer than
200 characters are cut to their first 197 characters plus `"..."`. -/
def truncateDescription (d : List Char) : List Char :=
  if 200 < d.length then d.take 197 ++ cs "..." else d

/-- Recognizes the two period clauses of the query planner
(`release_year >= current_year - 2` and
`release_year <= current_year - 20`). -/
def Clause.isPeriod : Clause → Bool
  | .yearGe _ => true
  | .yearLe _ => true
  | _ => false

/-- A raw row whose `title` column is unreadable while every other
column is present. -/
def badRawRow : RawRow :=
  { title := none, release_year := some 1995, genres := some (cs "Action"),
    vote_average := some 7, vote_count := some 500, popularity := some 10,
    overview := some (cs "Un braquage à Los Angeles."),
    weighted_score := some 4 }

/-- A fully readable raw row. -/
def goodRawRow : RawRow :=
  { title := some (cs "Heat"), release_year := some 1995,
    genres := some (cs "Action"), vote_average := some 8,
    vote_count := some 6000, popularity := some 40,
    overview := some (cs "Un braquage à Los Angeles."),
    weighted_score := some 48 }

/-- The vocabulary store after the administrative upsert
`add word rodeo theme western` on the bootstrapped store. -/
def mutatedStore : List VocabEntry :=
  add_word seedTable (cs "rodeo") (cs "theme") (cs "western")

/-- The filters the pipeline builds for the request `un western`
against the mutated store. -/
def westernFilters : QueryFilters :=
  analyze_request STOP_WORDS mutatedStore 2026 (cs "un western")

/-! ## Helper lemmas -/

theorem length_dots : (cs "...").length = 3 := rfl

theorem filter_upsert_self (table : List VocabEntry) (e : VocabEntry) :
    (upsert table e).filter (fun x => x.word == e.word) = [e] := by
  unfold upsert
  rw [List.filter_append, List.filter_filter]
  simp

theorem upsert_upsert (table : List VocabEntry) (e : VocabEntry) :
    upsert (upsert table e) e = upsert table e := by
  unfold upsert
  rw [List.filter_append, List.filter_filter]
  simp

/-! ## C7: idempotence of the administrative add-word upsert -/

/-- C7: for every table state and word, running the `add word` upsert of
`main` twice with the same category and subcategory changes nothing
beyond the first run, and after it the table holds exactly one
`significant_words` row keyed by that word, carrying the category, the
subcategory and the weight written last (the command always writes
weight 1). -/
theorem add_word_idempotent (table : List VocabEntry) (w c s : List Char) :
    add_word (add_word table w c s) w c s = add_word table w c s ∧
    (add_word table w c s).filter (fun e => e.word == w) =
      [⟨w, c, s, 1⟩] ∧
    (add_word table w c s).countP (fun e => e.word == w) = 1 := by
  refine ⟨upsert_upsert table ⟨w, c, s, 1⟩,
          filter_upsert_self table ⟨w, c, s, 1⟩, ?_⟩
  have h2 : List.filter (fun e => e.word == w) (add_word table w c s) =
      [⟨w, c, s, 1⟩] := filter_upsert_self table ⟨w, c, s, 1⟩
  rw [List.countP_eq_length_filter, h2]
  rfl

/-! ## C9: description truncation -/

/-- C9: the displayed description is at most 200 characters long; an
overview longer than 200 characters is displayed as its first 197
characters followed by the 3-character ellipsis (200 characters in
total), and a shorter overview is displayed unchanged. -/
theorem truncation_spec (d : List Char) :
    (truncateDescription d).length ≤ 200 ∧
    (200 < d.length →
      truncateDescription d = d.take 197 ++ cs "..." ∧
      (truncateDescription d).length = 200) ∧
    (d.length ≤ 200 → truncateDescription d = d) := by
  by_cases h : 200 < d.length
  · have he : truncateDescription d = d.take 197 ++ cs "..." := by
      unfold truncateDescription
      rw [if_pos h]
    have hl : (truncateDescription d).length = 200 := by
      rw [he, List.length_append, List.length_take, length_dots]
      omega
    exact ⟨by omega, fun _ => ⟨he, hl⟩, fun h2 => absurd h2 (by omega)⟩
  · have he : truncateDescription d = d := by
      unfold truncateDescription
      rw [if_neg h]
    refine ⟨?_, fun h2 => absurd h2 h, fun _ => he⟩
    rw [he]
    omega

/-- Witness for C9 at a 250-character overview. -/
theorem truncation_spec_witness :
    truncateDescription (List.replicate 250 'a') =
      List.replicate 197 'a' ++ cs "..." ∧
    (truncateDescription (List.replicate 250 'a')).length = 200 := by
  obtain ⟨h1, h2⟩ := (truncation_spec (List.replicate 250 'a')).2.1
    (by rw [List.length_replicate]; norm_num)
  refine ⟨?_, h2⟩
  rw [h1, List.take_replicate]
  norm_num

/-! ## C8: malformed-record handling in the result formatter -/

/-- C8 counterexample: on a row whose `title` access fails while every
other column is readable, `format_movie_result` yields the record-level
sentinel `None` instead of a display record that keeps the readable
fields and patches only the bad one. -/
theorem format_record_counterexample :
    badRawRow.genres = some (cs "Action") ∧
    badRawRow.overview = some (cs "Un braquage à Los Angeles.") ∧
    format_movie_result badRawRow = none := by
  exact ⟨rfl, rfl, rfl⟩

/-- C8 amended: when any required field of a record is missing or
unreadable, `format_movie_result` maps that whole record to the `None`
sentinel (only `popularity` and `weighted_score` are defaulted
per-field, to 0 and to the rating); the other records of the batch are
still formatted, so one bad record never aborts the batch. -/
theorem format_batch_isolation (rows₁ rows₂ : List RawRow) (m : RawRow)
    (hm : m.title = none ∨ m.release_year = none ∨ m.genres = none ∨
          m.vote_average = none ∨ m.vote_count = none ∨
          m.overview = none) :
    format_movie_result m = none ∧
    formatBatch (rows₁ ++ m :: rows₂) =
      formatBatch rows₁ ++ none :: formatBatch rows₂ ∧
    (formatBatch (rows₁ ++ m :: rows₂)).length =
      rows₁.length + 1 + rows₂.length := by
  have hnone : format_movie_result m = none := by
    obtain ⟨t, y, g, va, vc, pop, ov, ws⟩ := m
    cases t <;> cases y <;> cases g <;> cases va <;> cases vc <;>
      cases ov <;> simp_all [format_movie_result]
  refine ⟨hnone, ?_, ?_⟩
  · simp [formatBatch, hnone]
  · simp [formatBatch]
    omega

/-- Witness for C8: a batch of one good and one bad record. -/
theorem format_batch_isolation_witness :
    format_movie_result badRawRow = none ∧
    formatBatch ([goodRawRow] ++ badRawRow :: []) =
      formatBatch [goodRawRow] ++ none :: formatBatch [] := by
  obtain ⟨h1, h2, _⟩ :=
    format_batch_isolation [goodRawRow] [] badRawRow (Or.inl rfl)
  exact ⟨h1, h2⟩

/-! ## C2: ranking expression, ordering and limit -/

instance (sortBy : List Char) : IsTotal MovieRow (keyDesc sortBy) :=
  ⟨fun a b => le_total (sortKey sortBy b) (sortKey sortBy a)⟩

instance (sortBy : List Char) : IsTrans MovieRow (keyDesc sortBy) :=
  ⟨fun _ _ _ hab hbc => le_trans hbc hab⟩

theorem sortKey_weighted (m : MovieRow) :
    sortKey (cs "weighted_score") m = weighted_score m := by
  have h1 : (cs "weighted_score" == cs "popularity") = false := by decide
  have h2 : (cs "weighted_score" == cs "rating") = false := by decide
  simp [sortKey, h1, h2]

theorem sortKey_popularity (m : MovieRow) :
    sortKey (cs "popularity") m = m.popularity := by
  simp [sortKey]

theorem sortKey_rating (m : MovieRow) :
    sortKey (cs "rating") m = m.vote_average := by
  have h1 : (cs "rating" == cs "popularity") = false := by decide
  simp [sortKey, h1]

theorem runQuery_sorted (sortBy : List Char) (conds : List Clause)
    (catalog : List MovieRow) :
    List.Sorted (keyDesc sortBy) (runQuery sortBy conds catalog) := by
  unfold runQuery
  exact List.Pairwise.sublist (List.take_sublist _ _)
    (List.sorted_insertionSort (keyDesc sortBy) _)

/-- C2: for every catalog state and every filter set, the derived score
of a row is `vote_average * (vote_count / 1000) + popularity / 100`
(8.5 at vote_average 8, vote_count 1000, popularity 50); the query
returns at most 5 rows, ordered descending by the derived score when
`sort_by` is `weighted_score`, by raw popularity when it is
`popularity`, and by raw `vote_average` when it is `rating`. -/
theorem search_ranking_spec (currentYear : Int) (f : QueryFilters)
    (catalog : List MovieRow) :
    (∀ m : MovieRow, weighted_score m =
      m.vote_average * ((m.vote_count : ℚ) / 1000) + m.popularity / 100) ∧
    weighted_score ⟨[], [], 0, [], 8, 1000, 50⟩ = 17 / 2 ∧
    (search_movies_optimized currentYear f catalog).length ≤ 5 ∧
    (f.sort_by = cs "weighted_score" →
      List.Sorted (fun a b => weighted_score b ≤ weighted_score a)
        (search_movies_optimized currentYear f catalog)) ∧
    (f.sort_by = cs "popularity" →
      List.Sorted (fun a b : MovieRow => b.popularity ≤ a.popularity)
        (search_movies_optimized currentYear f catalog)) ∧
    (f.sort_by = cs "rating" →
      List.Sorted (fun a b : MovieRow => b.vote_average ≤ a.vote_average)
        (search_movies_optimized currentYear f catalog)) := by
  refine ⟨fun m => rfl, by norm_num [weighted_score], ?_, ?_, ?_, ?_⟩
  · exact List.length_take_le _ _
  · intro h
    unfold search_movies_optimized
    rw [h]
    exact (runQuery_sorted _ _ _).imp (fun hab => by
      rwa [keyDesc, sortKey_weighted, sortKey_weighted] at hab)
  · intro h
    unfold search_movies_optimized
    rw [h]
    exact (runQuery_sorted _ _ _).imp (fun hab => by
      rwa [keyDesc, sortKey_popularity, sortKey_popularity] at hab)
  · intro h
    unfold search_movies_optimized
    rw [h]
    exact (runQuery_sorted _ _ _).imp (fun hab => by
      rwa [keyDesc, sortKey_rating, sortKey_rating] at hab)

/-- Witness for C2: default filters (sort by weighted score) on an
empty catalog, plus the concrete score instance. -/
theorem search_ranking_spec_witness :
    weighted_score ⟨[], [], 0, [], 8, 1000, 50⟩ = 17 / 2 ∧
    (search_movies_optimized 2026 baseFilters []).length ≤ 5 ∧
    List.Sorted (fun a b => weighted_score b ≤ weighted_score a)
      (search_movies_optimized 2026 baseFilters []) := by
  obtain ⟨_, h2, h3, h4, _, _⟩ := search_ranking_spec 2026 baseFilters []
  exact ⟨h2, h3, h4 rfl⟩

/-! ## C4: text normalization -/

/-- C4: the normalizer returns exactly the word-boundary tokens of the
lower-cased text that pass the significance filter; consequently every
returned token has at least 3 characters, is not purely numeric and is
not a stop word.  The function is total (never raises) and the empty
input yields the empty sequence. -/
theorem normalizer_spec (text : List Char) :
    extract_significant_words text =
      (if text.isEmpty then []
       else (tokenize (lowerText text)).filter (keepToken STOP_WORDS)) ∧
    extract_significant_words [] = [] ∧
    ∀ w ∈ extract_significant_words text,
      3 ≤ w.length ∧ isdigitTok w = false ∧ w ∉ STOP_WORDS ∧
      w ∈ tokenize (lowerText text) := by
  refine ⟨rfl, rfl, ?_⟩
  intro w hw
  unfold extract_significant_words at hw
  by_cases he : text.isEmpty
  · rw [if_pos he] at hw
    exact absurd hw (List.not_mem_nil w)
  · rw [if_neg he] at hw
    obtain ⟨hmem, hkeep⟩ := List.mem_filter.mp hw
    unfold keepToken at hkeep
    simp only [Bool.and_eq_true] at hkeep
    obtain ⟨⟨h1, h2⟩, h3⟩ := hkeep
    have hlen : 2 < w.length := of_decide_eq_true h1
    simp only [Bool.not_eq_true'] at h2 h3
    refine ⟨by omega, h3, ?_, hmem⟩
    intro hmem2
    rw [List.contains, List.elem_iff.mpr hmem2] at h2
    simp at h2

/-- Witness for C4 on a concrete request. -/
theorem normalizer_spec_witness :
    3 ≤ (cs "guerre").length ∧ isdigitTok (cs "guerre") = false ∧
    cs "guerre" ∉ STOP_WORDS := by
  obtain ⟨h1, h2, h3, _⟩ :=
    (normalizer_spec (cs "un film de guerre de 1944")).2.2 (cs "guerre")
      (by decide)
  exact ⟨h1, h2, h3⟩

/-! ## C3: year extraction -/

theorem extract_year_loop_sound (cy : Nat) (text : List Char) :
    ∀ ps y, extract_year_loop cy text ps = some y →
      (1900 ≤ y ∧ y ≤ cy) ∧
      ∃ p ∈ ps, searchPattern p text = some y := by
  intro ps
  induction ps with
  | nil =>
    intro y h
    simp [extract_year_loop] at h
  | cons p ps ih =>
    intro y h
    unfold extract_year_loop at h
    rcases hs : searchPattern p text with _ | y₀
    · rw [hs] at h
      obtain ⟨hr, p', hp', hm⟩ := ih y h
      exact ⟨hr, p', List.mem_cons_of_mem p hp', hm⟩
    · simp only [hs] at h
      by_cases hr : 1900 ≤ y₀ ∧ y₀ ≤ cy
      · rw [if_pos hr] at h
        obtain rfl := Option.some_injective _ h
        exact ⟨hr, p, List.mem_cons_self p ps, hs⟩
      · rw [if_neg hr] at h
        obtain ⟨hr', p', hp', hm⟩ := ih y h
        exact ⟨hr', p', List.mem_cons_of_mem p hp', hm⟩

/-- C3: `extract_year` tries the patterns `de YYYY`, `en YYYY`,
`année YYYY` and bare `YYYY` in this order, returning the first pattern
match that lies in `[1900, current year]`; any returned year is in that
range, no pattern match in range yields `none`, and in particular
`de 1899` yields no year, and `en 2099` yields no year as long as the
current year is before 2099. -/
theorem year_extraction_spec (cy : Nat) :
    (∀ text, extract_year cy text =
      extract_year_loop cy text [cs "de ", cs "en ", cs "année ", cs ""]) ∧
    (∀ text y, extract_year cy text = some y →
      (1900 ≤ y ∧ y ≤ cy) ∧
      ∃ p ∈ year_patterns, searchPattern p text = some y) ∧
    extract_year cy (cs "de 1899") = none ∧
    (cy ≤ 2098 → extract_year cy (cs "en 2099") = none) := by
  refine ⟨fun text => rfl,
          fun text y h => extract_year_loop_sound cy text year_patterns y h,
          ?_, ?_⟩
  · have h1 : searchPattern (cs "de ") (cs "de 1899") = some 1899 := by
      decide
    have h2 : searchPattern (cs "en ") (cs "de 1899") = none := by decide
    have h3 : searchPattern (cs "année ") (cs "de 1899") = none := by
      decide
    have h4 : searchPattern (cs "") (cs "de 1899") = some 1899 := by decide
    simp [extract_year, year_patterns, extract_year_loop, h1, h2, h3, h4]
  · intro hcy
    have h1 : searchPattern (cs "de ") (cs "en 2099") = none := by decide
    have h2 : searchPattern (cs "en ") (cs "en 2099") = some 2099 := by
      decide
    have h3 : searchPattern (cs "année ") (cs "en 2099") = none := by
      decide
    have h4 : searchPattern (cs "") (cs "en 2099") = some 2099 := by decide
    have hne : ¬(2099 ≤ cy) := by omega
    simp [extract_year, year_patterns, extract_year_loop, h1, h2, h3, h4,
          hne]

/-- Witness for C3 with the current year at 2025. -/
theorem year_extraction_spec_witness :
    (1900 ≤ 2010 ∧ 2010 ≤ 2025) ∧
    extract_year 2025 (cs "en 2099") = none := by
  refine ⟨((year_extraction_spec 2025).2.1 (cs "un film de 2010") 2010
    (by decide)).1, (year_extraction_spec 2025).2.2.2 (by omega)⟩

/-! ## Projection lemmas for the filter-extraction fold -/

theorem applyEntry_proj (f : QueryFilters) (e : VocabEntry) :
    (applyEntry f e).sort_by = f.sort_by ∧
    (applyEntry f e).rating_min = f.rating_min ∧
    (applyEntry f e).prefer_unknown = f.prefer_unknown ∧
    (applyEntry f e).mood = f.mood ∧
    (applyEntry f e).period = f.period ∧
    (applyEntry f e).year = f.year ∧
    (applyEntry f e).keywords = f.keywords ++ [e.word] := by
  simp only [applyEntry]
  repeat' split
  all_goals simp

theorem foldl_applyEntry_proj (l : List VocabEntry) :
    ∀ f : QueryFilters,
      (l.foldl applyEntry f).sort_by = f.sort_by ∧
      (l.foldl applyEntry f).rating_min = f.rating_min ∧
      (l.foldl applyEntry f).prefer_unknown = f.prefer_unknown ∧
      (l.foldl applyEntry f).mood = f.mood ∧
      (l.foldl applyEntry f).period = f.period ∧
      (l.foldl applyEntry f).year = f.year ∧
      (l.foldl applyEntry f).keywords =
        f.keywords ++ l.map VocabEntry.word := by
  induction l with
  | nil => intro f; simp
  | cons e l ih =>
    intro f
    obtain ⟨p1, p2, p3, p4, p5, p6, p7⟩ := applyEntry_proj f e
    obtain ⟨q1, q2, q3, q4, q5, q6, q7⟩ := ih (applyEntry f e)
    rw [List.foldl_cons]
    refine ⟨q1.trans p1, q2.trans p2, q3.trans p3, q4.trans p4,
            q5.trans p5, q6.trans p6, ?_⟩
    rw [q7, p7, List.map_cons, List.append_assoc, List.singleton_append]

theorem applyQuality_proj (t : List Char) (f : QueryFilters) :
    (applyQuality t f).mood = f.mood ∧
    (applyQuality t f).period = f.period ∧
    (applyQuality t f).year = f.year ∧
    (applyQuality t f).genres = f.genres ∧
    (applyQuality t f).themes = f.themes ∧
    (applyQuality t f).keywords = f.keywords := by
  simp only [applyQuality]
  repeat' split
  all_goals simp

/-! ## C1: quality-signal override -/

/-- C1: on the lower-cased request text, a substring occurrence of any
"popular" indicator forces `sort_by = popularity` regardless of the
other signal groups; otherwise a "critically acclaimed" indicator
forces `sort_by = rating` with `rating_min = 7`; otherwise an
"under-the-radar" indicator sets `prefer_unknown` with
`rating_min = 6.5` while `sort_by` stays `weighted_score`; otherwise
`sort_by` stays `weighted_score` and `rating_min` stays unset. -/
theorem quality_signal_spec (stop : List (List Char))
    (table : List VocabEntry) (cy : Nat) (text : List Char) :
    (anySubstr POPULAIRE_WORDS (lowerText text) = true →
      (analyze_request stop table cy text).sort_by = cs "popularity") ∧
    (anySubstr POPULAIRE_WORDS (lowerText text) = false →
      anySubstr CRITIQUE_WORDS (lowerText text) = true →
      (analyze_request stop table cy text).sort_by = cs "rating" ∧
      (analyze_request stop table cy text).rating_min = some 7) ∧
    (anySubstr POPULAIRE_WORDS (lowerText text) = false →
      anySubstr CRITIQUE_WORDS (lowerText text) = false →
      anySubstr INCONNU_WORDS (lowerText text) = true →
      (analyze_request stop table cy text).prefer_unknown = true ∧
      (analyze_request stop table cy text).rating_min =
        some (13 / 2 : ℚ) ∧
      (analyze_request stop table cy text).sort_by =
        cs "weighted_score") ∧
    (anySubstr POPULAIRE_WORDS (lowerText text) = false →
      anySubstr CRITIQUE_WORDS (lowerText text) = false →
      anySubstr INCONNU_WORDS (lowerText text) = false →
      (analyze_request stop table cy text).sort_by = cs "weighted_score" ∧
      (analyze_request stop table cy text).rating_min = none) := by
  obtain ⟨m1, m2, m3, -, -, -, -⟩ := foldl_applyEntry_proj
    (get_significant_words stop table (lowerText text))
    { baseFilters with year := extract_year cy (lowerText text) }
  have hmsort : ((get_significant_words stop table
      (lowerText text)).foldl applyEntry
      { baseFilters with year := extract_year cy (lowerText text)
        }).sort_by = cs "weighted_score" := m1.trans rfl
  have hmrat : ((get_significant_words stop table
      (lowerText text)).foldl applyEntry
      { baseFilters with year := extract_year cy (lowerText text)
        }).rating_min = none := m2.trans rfl
  simp only [analyze_request]
  refine ⟨?_, ?_, ?_, ?_⟩
  · intro h
    unfold applyQuality
    rw [if_pos h]
  · intro hp hc
    unfold applyQuality
    rw [if_neg (by simp [hp]), if_pos hc]
    exact ⟨rfl, rfl⟩
  · intro hp hc hi
    unfold applyQuality
    rw [if_neg (by simp [hp]), if_neg (by simp [hc]), if_pos hi]
    exact ⟨rfl, rfl, hmsort⟩
  · intro hp hc hi
    unfold applyQuality
    rw [if_neg (by simp [hp]), if_neg (by simp [hc]),
        if_neg (by simp [hi])]
    exact ⟨hmsort, hmrat⟩

/-- Witness for C1: a request holding both a "popular" and a
"critically acclaimed" indicator selects the popularity ordering. -/
theorem quality_signal_spec_witness :
    (analyze_request [] [] 2026
      (cs "un film populaire acclamé")).sort_by = cs "popularity" := by
  exact (quality_signal_spec [] [] 2026
    (cs "un film populaire acclamé")).1 (by decide)

/-! ## C10: mood and period are never assigned -/

theorem build_conditions_no_period (cy : Int) (f : QueryFilters)
    (hp : f.period = none) :
    ∀ c ∈ build_conditions cy f, c.isPeriod = false := by
  intro c hc
  simp only [build_conditions, hp] at hc
  rcases List.mem_append.mp hc with hc | hc
  · rcases List.mem_append.mp hc with hc | hc
    · rcases List.mem_append.mp hc with hc | hc
      · split at hc
        · simp at hc
        · rw [List.mem_singleton] at hc
          subst hc
          rfl
      · split at hc
        · simp at hc
        · split at hc
          · simp at hc
          · rw [List.mem_singleton] at hc
            subst hc
            rfl
    · rcases hy : f.year with _ | y
      · simp [hy] at hc
      · simp only [hy] at hc
        rw [List.mem_singleton] at hc
        subst hc
        rfl
  · rcases hr : f.rating_min with _ | q
    · simp [hr] at hc
    · simp only [hr] at hc
      split at hc
      · simp at hc
      · rw [List.mem_singleton] at hc
        subst hc
        rfl

/-- C10: for every request text and every vocabulary-store state the
extracted filters have `mood = None` and `period = None`, so the two
period clauses of the query planner (`release_year >=` and
`release_year <=`) never occur among the conditions built from a
chat request. -/
theorem mood_period_never_assigned (stop : List (List Char))
    (table : List VocabEntry) (cyA : Nat) (cyB : Int) (text : List Char) :
    (analyze_request stop table cyA text).mood = none ∧
    (analyze_request stop table cyA text).period = none ∧
    ∀ c ∈ build_conditions cyB (analyze_request stop table cyA text),
      (∀ y, c ≠ Clause.yearGe y) ∧ (∀ y, c ≠ Clause.yearLe y) := by
  obtain ⟨-, -, -, f4, f5, -, -⟩ := foldl_applyEntry_proj
    (get_significant_words stop table (lowerText text))
    { baseFilters with year := extract_year cyA (lowerText text) }
  obtain ⟨q1, q2, -, -, -, -⟩ := applyQuality_proj (lowerText text)
    ((get_significant_words stop table (lowerText text)).foldl applyEntry
      { baseFilters with year := extract_year cyA (lowerText text) })
  have hmood : (analyze_request stop table cyA text).mood = none := by
    simp only [analyze_request]
    exact q1.trans (f4.trans rfl)
  have hperiod : (analyze_request stop table cyA text).period = none := by
    simp only [analyze_request]
    exact q2.trans (f5.trans rfl)
  refine ⟨hmood, hperiod, ?_⟩
  intro c hc
  have hnp := build_conditions_no_period cyB _ hperiod c hc
  constructor <;> intro y hy <;> subst hy <;>
    simp [Clause.isPeriod] at hnp

/-- Witness for C10: the request `un film de 2010` produces an exact
year clause, and that clause is not a period clause. -/
theorem mood_period_never_assigned_witness :
    (analyze_request [] [] 2026 (cs "un film de 2010")).mood = none ∧
    (∀ y, Clause.yearEq 2010 ≠ Clause.yearGe y) := by
  obtain ⟨h1, -, h3⟩ :=
    mood_period_never_assigned [] [] 2026 2026 (cs "un film de 2010")
  exact ⟨h1, (h3 (Clause.yearEq 2010) (by decide)).1⟩

/-! ## C5: vocabulary classification and category population -/

theorem applyEntry_genres_cases (f : QueryFilters) (e : VocabEntry) :
    (applyEntry f e).genres = f.genres ∨
    ((applyEntry f e).genres = f.genres ++ [e.subcategory] ∧
      e.subcategory ∉ f.genres) := by
  simp only [applyEntry]
  repeat' split
  all_goals simp_all [List.contains, List.elem_iff]

theorem applyEntry_themes_cases (f : QueryFilters) (e : VocabEntry) :
    (applyEntry f e).themes = f.themes ∨
    ((applyEntry f e).themes = f.themes ++ [e.subcategory] ∧
      e.subcategory ∉ f.themes) := by
  simp only [applyEntry]
  repeat' split
  all_goals simp_all [List.contains, List.elem_iff]

theorem nodup_append_singleton {α : Type} {l : List α} {a : α}
    (hl : l.Nodup) (ha : a ∉ l) : (l ++ [a]).Nodup := by
  rw [List.nodup_append]
  refine ⟨hl, List.nodup_singleton a, ?_⟩
  intro x hx hx'
  rw [List.mem_singleton] at hx'
  subst hx'
  exact ha hx

theorem foldl_applyEntry_nodup (l : List VocabEntry) :
    ∀ f : QueryFilters, f.genres.Nodup → f.themes.Nodup →
      (l.foldl applyEntry f).genres.Nodup ∧
      (l.foldl applyEntry f).themes.Nodup := by
  induction l with
  | nil => intro f hg ht; exact ⟨hg, ht⟩
  | cons e l ih =>
    intro f hg ht
    rw [List.foldl_cons]
    refine ih (applyEntry f e) ?_ ?_
    · rcases applyEntry_genres_cases f e with h | ⟨h, hnm⟩ <;> rw [h]
      · exact hg
      · exact nodup_append_singleton hg hnm
    · rcases applyEntry_themes_cases f e with h | ⟨h, hnm⟩ <;> rw [h]
      · exact ht
      · exact nodup_append_singleton ht hnm

theorem countP_word_le_one (w : List Char) :
    ∀ table : List VocabEntry, (table.map VocabEntry.word).Nodup →
      table.countP (fun e => e.word == w) ≤ 1 := by
  intro table
  induction table with
  | nil => intro _; simp
  | cons e l ih =>
    intro hnd
    rw [List.map_cons, List.nodup_cons] at hnd
    obtain ⟨hne, hnd'⟩ := hnd
    rw [List.countP_cons]
    by_cases hw : (e.word == w) = true
    · have hzero : l.countP (fun x => x.word == w) = 0 := by
        rw [List.countP_eq_zero]
        intro x hx hbeq
        apply hne
        have hxw : x.word = w := by simpa using hbeq
        have hew : e.word = w := by simpa using hw
        rw [List.mem_map]
        exact ⟨x, hx, hxw.trans hew.symm⟩
      simp [hzero, hw]
    · have hb : (e.word == w) = false := by simpa using hw
      simp only [hb, if_false]
      simpa using ih hnd'

set_option maxRecDepth 8000 in
/-- C5 counterexample: in the request `guerre et guerre` the
significant token `guerre` occurs twice, yet the classifier returns a
single matching row, not two — the SQL `IN` predicate returns each
`significant_words` row at most once no matter how often its word
occurs among the tokens. -/
theorem classifier_counterexample :
    filteredWords STOP_WORDS (cs "guerre et guerre") =
      [cs "guerre", cs "guerre"] ∧
    (get_significant_words STOP_WORDS seedTable
      (cs "guerre et guerre")).countP
        (fun e => e.word == cs "guerre") = 1 := by
  constructor
  · decide
  · decide

/-- C5 amended: the classifier returns exactly the store rows whose
word occurs among the significant tokens, in store order, each row at
most once when the store keys are unique (as the `word` primary key
guarantees); the extractor appends each returned word to `keywords`
unconditionally and each subcategory to `genres` or `themes` at most
once, keeping first-seen order. -/
theorem classifier_spec (stop : List (List Char))
    (table : List VocabEntry) (cy : Nat) (text : List Char) :
    get_significant_words stop table text =
      table.filter (fun e => (filteredWords stop text).contains e.word) ∧
    ((table.map VocabEntry.word).Nodup → ∀ w : List Char,
      (get_significant_words stop table text).countP
        (fun e => e.word == w) ≤ 1) ∧
    (analyze_request stop table cy text).keywords =
      (get_significant_words stop table (lowerText text)).map
        VocabEntry.word ∧
    (analyze_request stop table cy text).genres.Nodup ∧
    (analyze_request stop table cy text).themes.Nodup := by
  have hchar : get_significant_words stop table text =
      table.filter (fun e =>
        (filteredWords stop text).contains e.word) := by
    simp only [get_significant_words]
    split
    · rename_i he
      rw [List.isEmpty_iff] at he
      rw [he]
      symm
      rw [List.filter_eq_nil_iff]
      intro e _
      simp [List.contains]
    · rfl
  refine ⟨hchar, ?_, ?_, ?_, ?_⟩
  · intro hnd w
    have hsub : (get_significant_words stop table text).countP
        (fun e => e.word == w) ≤
        table.countP (fun e => e.word == w) := by
      rw [hchar]
      exact (List.filter_sublist table).countP_le _
    exact le_trans hsub (countP_word_le_one w table hnd)
  · obtain ⟨-, -, -, -, -, k⟩ := applyQuality_proj (lowerText text)
      ((get_significant_words stop table (lowerText text)).foldl
        applyEntry
        { baseFilters with year := extract_year cy (lowerText text) })
    obtain ⟨-, -, -, -, -, -, k'⟩ := foldl_applyEntry_proj
      (get_significant_words stop table (lowerText text))
      { baseFilters with year := extract_year cy (lowerText text) }
    simp only [analyze_request]
    rw [k, k']
    rfl
  · obtain ⟨-, -, -, g, -, -⟩ := applyQuality_proj (lowerText text)
      ((get_significant_words stop table (lowerText text)).foldl
        applyEntry
        { baseFilters with year := extract_year cy (lowerText text) })
    obtain ⟨hg, -⟩ := foldl_applyEntry_nodup
      (get_significant_words stop table (lowerText text))
      { baseFilters with year := extract_year cy (lowerText text) }
      List.nodup_nil List.nodup_nil
    simp only [analyze_request]
    rw [g]
    exact hg
  · obtain ⟨-, -, -, -, t, -⟩ := applyQuality_proj (lowerText text)
      ((get_significant_words stop table (lowerText text)).foldl
        applyEntry
        { baseFilters with year := extract_year cy (lowerText text) })
    obtain ⟨-, ht⟩ := foldl_applyEntry_nodup
      (get_significant_words stop table (lowerText text))
      { baseFilters with year := extract_year cy (lowerText text) }
      List.nodup_nil List.nodup_nil
    simp only [analyze_request]
    rw [t]
    exact ht

set_option maxRecDepth 8000 in
/-- Witness for C5 against the bootstrapped store, whose keys are
unique. -/
theorem classifier_spec_witness :
    (get_significant_words STOP_WORDS seedTable
      (cs "guerre et histoire")).countP
        (fun e => e.word == cs "guerre") ≤ 1 := by
  exact (classifier_spec STOP_WORDS seedTable 2026
    (cs "guerre et histoire")).2.1 (by decide) (cs "guerre")

/-! ## C6: theme clause construction -/

set_option maxRecDepth 8000 in
/-- C6 counterexample: after the administrative upsert of `rodeo` into
theme `western`, the store holds that row, the request `un western`
selects the theme, yet the generated theme OR-group tests only the
five words of the static `THEME_MAPPING` entry — `rodeo` is absent:
the clause is built from the module-level mapping, not from the
mutable `significant_words` store. -/
theorem theme_clause_counterexample :
    (⟨cs "rodeo", cs "theme", cs "western", 1⟩ : VocabEntry) ∈
      mutatedStore ∧
    westernFilters.themes = [cs "western"] ∧
    build_conditions 2026 westernFilters =
      [Clause.orThemes [cs "western", cs "cowboy", cs "far west",
                        cs "ranch", cs "shérif"]] ∧
    cs "rodeo" ∉ [cs "western", cs "cowboy", cs "far west",
                  cs "ranch", cs "shérif"] := by
  refine ⟨by decide, by decide, by decide, by decide⟩

/-- C6 amended: when the requested themes are non-empty and at least
one of them occurs in the static `THEME_MAPPING`, the generated
predicate contains an OR-group over exactly the `THEME_MAPPING` words
of the requested themes, each word tested as a case-insensitive
substring match against overview OR title; words added to a theme in
the vocabulary store after bootstrap never enter this clause. -/
theorem theme_clause_spec (cy : Int) (f : QueryFilters)
    (h1 : f.themes.isEmpty = false)
    (h2 : (themeClauseWords f.themes).isEmpty = false) :
    Clause.orThemes ((themeClauseWords f.themes).map lowerText) ∈
      build_conditions cy f ∧
    (∀ m ws, Clause.holds m (Clause.orThemes ws) =
      ws.any (fun w => isSubstr w (sqlLower m.overview) ||
                       isSubstr w (sqlLower m.title))) := by
  refine ⟨?_, fun m ws => rfl⟩
  simp only [build_conditions, h1, h2]
  simp [List.mem_append]

/-- Witness for C6 with the theme `western` requested. -/
theorem theme_clause_spec_witness :
    Clause.orThemes ((themeClauseWords [cs "western"]).map lowerText) ∈
      build_conditions 2026
        { baseFilters with themes := [cs "western"] } := by
  exact (theme_clause_spec 2026
    { baseFilters with themes := [cs "western"] }
    (by decide) (by decide)).1

end RecoBot
